import Mathlib

/-!
Verification of the ScoreMyFood client-side scan pipeline
(`frontend_tmp/app/(tabs)/index.tsx`).

The embedding models the data shapes (`OcrLine`, `Structured`, the scan
session state), the pure score engine `computeHealthScore`, and the
`pickAndScan` controller as a pure function of the outcomes of its
asynchronous sub-steps (permission prompt, picker/camera, blob fetch,
network request, JSON parse).  JavaScript objects with string keys
(`flags: Record<string, boolean>`) are modelled as association lists with
first-match lookup; JSON numbers that the client never computes on
(`confidence`, `percent`) are modelled as rationals.
-/

namespace ScoreMyFood

/-- Model of `Platform.OS === "web"` vs native, the only distinction the code makes. -/
inductive Platform where
  | web
  | native
deriving DecidableEq, Repr

/-- Model of `type OcrLine = { text: string; confidence?: number }`. -/
structure OcrLine where
  text : String
  confidence : Option ℚ
deriving DecidableEq, Repr

/-- Model of an entry of `ingredients?: { name: string; percent?: number | null }[]`. -/
structure Ingredient where
  name : String
  percent : Option ℚ
deriving DecidableEq, Repr

/-- Model of an entry of `additives?: { code: string; name?: string | null }[]`. -/
structure Additive where
  code : String
  name : Option String
deriving DecidableEq, Repr

/-- Model of `type Structured` (lines 15-20 of the source).
`flags: Record<string, boolean>` is modelled as an association list in
insertion order; lookup takes the first match, as JavaScript property
access does on the (duplicate-free) keys of an object literal. -/
structure Structured where
  ingredients : Option (List Ingredient)
  allergens : Option (List String)
  additives : Option (List Additive)
  flags : Option (List (String × Bool))
deriving DecidableEq, Repr

/-- First-match lookup in an association list, the model of reading a
property of a JavaScript object. -/
def lookupFlag : List (String × Bool) → String → Option Bool
  | [], _ => none
  | p :: rest, key => if p.1 = key then some p.2 else lookupFlag rest key

/-- Truthiness of `s.flags?.<key>`: `false` when `flags` is absent, when the
key is missing, and when the stored value is `false`. -/
def flagTrue (fl : Option (List (String × Bool))) (key : String) : Bool :=
  match fl with
  | none => false
  | some l => (lookupFlag l key).getD false

/-- The additive penalty `Math.min((s.additives?.length || 0) * 2, 20)` (line 30 of the source). -/
def additivePenalty (additives : Option (List Additive)) : ℤ :=
  min (((additives.getD []).length : ℤ) * 2) 20

/-- The score engine `computeHealthScore` (lines 23–33 of the source): `null` in, `null` out;
otherwise start at 100, subtract the four flag penalties, subtract the
additive penalty, clamp below at 0. -/
def computeHealthScore (s : Option Structured) : Option ℤ :=
  match s with
  | none => none
  | some st =>
    let score : ℤ := 100
    let score := if flagTrue st.flags "palmOil" then score - 10 else score
    let score := if flagTrue st.flags "addedSugar" then score - 15 else score
    let score := if flagTrue st.flags "addedSalt" then score - 10 else score
    let score := if flagTrue st.flags "msgLikeEnhancer" then score - 15 else score
    let score := score - additivePenalty st.additives
    some (max 0 score)

/-! ## The scan session and its controller -/

/-- The component state of `HomeTab`: `imageUri`, `lines`, `structured`,
`busy` (lines 36–39 of the source). -/
structure Session where
  imageUri : Option String
  lines : List OcrLine
  structured : Option Structured
  busy : Bool
deriving DecidableEq, Repr

/-- Model of an `Alert.alert(title, message)` call shown to the user. -/
structure Alert where
  title : String
  message : String
deriving DecidableEq, Repr

/-- Outcome of one awaited sub-step: either its value or a thrown
exception carrying a message. -/
inductive StepResult (α : Type) where
  | ok (a : α)
  | threw (msg : String)
deriving DecidableEq, Repr

/-- An asset returned by the image picker; the code only reads `uri`. -/
structure ImageAsset where
  uri : String
deriving DecidableEq, Repr

/-- Model of `ImagePicker.ImagePickerResult`: `canceled` plus the selected assets. -/
structure PickerResult where
  canceled : Bool
  assets : List ImageAsset
deriving DecidableEq, Repr

/-- Model of `{ status }` from `requestCameraPermissionsAsync`; the code only
compares `status` with `"granted"`. -/
structure PermissionResponse where
  status : String
deriving DecidableEq, Repr

/-- The `fetch` response as the code reads it: `ok` and `status`. -/
structure HttpResponse where
  ok : Bool
  status : Nat
deriving DecidableEq, Repr

/-- The parsed JSON body.  The client reads only the top-level `lines` and
`structured` fields; `extra` stands for all other top-level fields, which
it ignores.  `none` for a field models JSON `null` or an absent key, both
falsy under `||`. -/
structure ResponseJson where
  lines : Option (List OcrLine)
  structured : Option Structured
  extra : List (String × String)
deriving DecidableEq, Repr

/-- The environment of one scan attempt: the platform plus the outcome of
each awaited external operation, in the order the code performs them. -/
structure ScanEnv where
  platform : Platform
  permission : StepResult PermissionResponse
  picker : StepResult PickerResult
  blobFetch : StepResult Unit
  fetchResult : StepResult HttpResponse
  jsonParse : StepResult (Option ResponseJson)
deriving DecidableEq, Repr

/-- Lines 52–61: on web, open the library picker; on native, request camera
permission, throw `"Camera permission denied"` unless `status === "granted"`,
then open the camera. -/
def pickStep (env : ScanEnv) : StepResult PickerResult :=
  match env.platform with
  | .web => env.picker
  | .native =>
    match env.permission with
    | .threw m => .threw m
    | .ok p => if p.status = "granted" then env.picker else .threw "Camera permission denied"

/-- Lines 68–79: building the `FormData`.  On web this dereferences the
asset URI into a blob (an awaited step that can fail); on native it appends
the file reference directly and cannot throw. -/
def encodeStep (env : ScanEnv) : StepResult Unit :=
  match env.platform with
  | .web => env.blobFetch
  | .native => .ok ()

/-- The backend client `uploadToBackend` (lines 41–45): propagate a transport failure, throw
`"Server error: <status>"` on a non-ok response, otherwise return the
parsed JSON body. -/
def uploadToBackend (fetchRes : StepResult HttpResponse)
    (parseRes : StepResult (Option ResponseJson)) :
    Except String (Option ResponseJson) :=
  match fetchRes with
  | .threw m => .error m
  | .ok resp =>
    if !resp.ok then .error ("Server error: " ++ toString resp.status)
    else
      match parseRes with
      | .threw m => .error m
      | .ok j => .ok j

/-- Outcome of the `try` block: normal completion (including the early
`return` on cancellation) or a thrown exception, together with the session
as mutated so far. -/
inductive TryOutcome where
  | completed (s : Session)
  | threw (msg : String) (s : Session)
deriving DecidableEq, Repr

/-- The body of the `try` block of `pickAndScan` (lines 51–83), applied to
a session that already has `lines`/`structured` cleared and `busy` set.
The boolean records whether `uploadToBackend` was invoked (a backend
request issued). -/
def tryBlock (env : ScanEnv) (s : Session) : TryOutcome × Bool :=
  match pickStep env with
  | .threw m => (.threw m s, false)
  | .ok result =>
    if result.canceled then (.completed s, false)
    else
      match result.assets.head? with
      | none => (.threw "TypeError: Cannot read properties of undefined" s, false)
      | some asset =>
        let s := { s with imageUri := some asset.uri }
        match encodeStep env with
        | .threw m => (.threw m s, false)
        | .ok _ =>
          match uploadToBackend env.fetchResult env.jsonParse with
          | .error m => (.threw m s, true)
          | .ok json =>
            (.completed { s with
                lines := (json.bind ResponseJson.lines).getD []
                structured := json.bind ResponseJson.structured }, true)

/-- The result of one invocation of `pickAndScan`: the final session, the
alert shown (if any), and whether a backend request was issued. -/
structure ScanResult where
  session : Session
  alert : Option Alert
  uploadStarted : Bool
deriving DecidableEq, Repr

/-- The controller `pickAndScan` (lines 47–89): clear `lines`/`structured`, set `busy`,
run the `try` block; on a throw, alert `"OCR failed"` with the error's
message or `"Unknown error"` when the message is empty; `finally`, reset
`busy` to `false`. -/
def pickAndScan (env : ScanEnv) (s : Session) : ScanResult :=
  let s0 : Session := { s with lines := [], structured := none, busy := true }
  match tryBlock env s0 with
  | (.completed s1, issued) =>
    { session := { s1 with busy := false }, alert := none, uploadStarted := issued }
  | (.threw m s1, issued) =>
    { session := { s1 with busy := false }
      alert := some { title := "OCR failed"
                      message := if m = "" then "Unknown error" else m }
      uploadStarted := issued }

/-- Line 95: `<Button onPress={pickAndScan} disabled={busy} />` — the UI
invokes `pickAndScan` only when the button is enabled, i.e. when
`busy` is `false`. -/
def uiTrigger (env : ScanEnv) (s : Session) : ScanResult :=
  if s.busy then { session := s, alert := none, uploadStarted := false }
  else pickAndScan env s

/-! ## Concrete scenarios -/

/-- A web-platform environment whose every step succeeds: one selected
asset, a 200 response whose body has one line, no structured data, and an
ignored extra top-level field. -/
def okEnv : ScanEnv :=
  { platform := .web
    permission := .ok ⟨"granted"⟩
    picker := .ok ⟨false, [⟨"blob:1"⟩]⟩
    blobFetch := .ok ()
    fetchResult := .ok ⟨true, 200⟩
    jsonParse := .ok (some ⟨some [⟨"SUGAR", none⟩], none, [("model", "v1")]⟩) }

/-- A session in the middle of a scan: `busy` is set and a previous line
is still displayed. -/
def busySession : Session :=
  ⟨none, [⟨"OLD", none⟩], none, true⟩

/-! ## Helper lemmas -/

/-- The server-error message is never the empty string, so the generic
`"Unknown error"` fallback of the alert is never taken for it. -/
theorem serverErrorMsg_ne_empty (x : String) : ("Server error: " ++ x) ≠ "" := by
  intro h
  have h2 := congrArg String.data h
  simp at h2

/-- First-match lookup is invariant under permutation of an association
list whose keys are duplicate-free. -/
theorem lookupFlag_perm : ∀ {l₁ l₂ : List (String × Bool)}, l₁.Perm l₂ →
    (l₁.map Prod.fst).Nodup → ∀ k, lookupFlag l₁ k = lookupFlag l₂ k := by
  intro l₁ l₂ h
  induction h with
  | nil => intro _ _; rfl
  | cons x _ ih =>
    intro hnd k
    simp only [List.map_cons, List.nodup_cons] at hnd
    simp only [lookupFlag]
    split
    · rfl
    · exact ih hnd.2 k
  | swap x y l =>
    intro hnd k
    simp only [List.map_cons, List.nodup_cons, List.mem_cons] at hnd
    have hxy : y.1 ≠ x.1 := fun e => hnd.1 (Or.inl e)
    by_cases h1 : y.1 = k <;> by_cases h2 : x.1 = k
    · exact absurd (h1.trans h2.symm) hxy
    · simp [lookupFlag, h1, h2]
    · simp [lookupFlag, h1, h2]
    · simp [lookupFlag, h1, h2]
  | trans h₁ _ ih₁ ih₂ =>
    intro hnd k
    exact (ih₁ hnd k).trans (ih₂ ((h₁.map Prod.fst).nodup hnd) k)

/-- Evaluation form of the score engine: penalties written as subtracted
if-terms. -/
theorem computeHealthScore_eq (st : Structured) :
    computeHealthScore (some st) =
      some (max 0 (100
        - (if flagTrue st.flags "palmOil" then 10 else 0)
        - (if flagTrue st.flags "addedSugar" then 15 else 0)
        - (if flagTrue st.flags "addedSalt" then 10 else 0)
        - (if flagTrue st.flags "msgLikeEnhancer" then 15 else 0)
        - additivePenalty st.additives)) := by
  simp only [computeHealthScore, Option.some.injEq]
  cases flagTrue st.flags "palmOil" <;>
    cases flagTrue st.flags "addedSugar" <;>
      cases flagTrue st.flags "addedSalt" <;>
        cases flagTrue st.flags "msgLikeEnhancer" <;>
          simp

/-- The additive penalty is between 0 and 20. -/
theorem additivePenalty_bounds (a : Option (List Additive)) :
    0 ≤ additivePenalty a ∧ additivePenalty a ≤ 20 := by
  simp only [additivePenalty]
  omega

/-- The `try` block never reads the extra top-level fields of the parsed
JSON body. -/
theorem tryBlock_extra_irrelevant (env : ScanEnv) (s0 : Session)
    (j : ResponseJson) (e e' : List (String × String)) :
    tryBlock { env with jsonParse := .ok (some { j with extra := e }) } s0 =
      tryBlock { env with jsonParse := .ok (some { j with extra := e' }) } s0 := by
  have hps : pickStep { env with jsonParse := .ok (some { j with extra := e }) } =
      pickStep env := rfl
  have hps' : pickStep { env with jsonParse := .ok (some { j with extra := e' }) } =
      pickStep env := rfl
  have hes : encodeStep { env with jsonParse := .ok (some { j with extra := e }) } =
      encodeStep env := rfl
  have hes' : encodeStep { env with jsonParse := .ok (some { j with extra := e' }) } =
      encodeStep env := rfl
  simp only [tryBlock, hps, hps', hes, hes']
  cases pickStep env with
  | threw m => rfl
  | ok r =>
    cases hc : r.canceled
    · simp only [hc, Bool.false_eq_true, if_false]
      cases r.assets.head? with
      | none => rfl
      | some a =>
        cases encodeStep env with
        | threw m => rfl
        | ok u =>
          cases hfr : env.fetchResult with
          | threw m => simp [uploadToBackend, hfr]
          | ok resp =>
            cases hro : resp.ok <;>
              simp [uploadToBackend, hfr, hro]
    · simp only [hc, if_true]

/-! ## Claims -/

/-- C1: `computeHealthScore` of an absent structured result is absent; for a
present one it equals `max 0` of 100 minus the four tabulated flag
penalties minus `min (2 × additive count) 20`, the result is an integer in
`[0, 100]`, and flags outside the four-entry table do not affect the
result (the score depends on the flags only through the four tabulated
lookups). -/
theorem c1_computeHealthScore_contract :
    computeHealthScore none = none ∧
    (∀ st : Structured,
      computeHealthScore (some st) =
        some (max 0 (100
          - (if flagTrue st.flags "palmOil" then 10 else 0)
          - (if flagTrue st.flags "addedSugar" then 15 else 0)
          - (if flagTrue st.flags "addedSalt" then 10 else 0)
          - (if flagTrue st.flags "msgLikeEnhancer" then 15 else 0)
          - min (2 * ((st.additives.getD []).length : ℤ)) 20))) ∧
    (∀ st : Structured, ∀ v : ℤ, computeHealthScore (some st) = some v →
      0 ≤ v ∧ v ≤ 100) ∧
    (∀ st₁ st₂ : Structured, st₁.additives = st₂.additives →
      (∀ k ∈ ["palmOil", "addedSugar", "addedSalt", "msgLikeEnhancer"],
        flagTrue st₁.flags k = flagTrue st₂.flags k) →
      computeHealthScore (some st₁) = computeHealthScore (some st₂)) := by
  refine ⟨rfl, ?_, ?_, ?_⟩
  · intro st
    rw [computeHealthScore_eq]
    simp only [additivePenalty, Option.some.injEq]
    omega
  · intro st v h
    rw [computeHealthScore_eq] at h
    simp only [Option.some.injEq] at h
    have hb := additivePenalty_bounds st.additives
    split_ifs at h <;> omega
  · intro st₁ st₂ hadd hflags
    rw [computeHealthScore_eq, computeHealthScore_eq]
    rw [hflags "palmOil" (by simp), hflags "addedSugar" (by simp),
      hflags "addedSalt" (by simp), hflags "msgLikeEnhancer" (by simp), hadd]

/-- C1 witness: the bounds applied to the `addedSugar`-only example (score
85), and score equality between flag maps that differ only in a key
outside the four-entry table. -/
theorem c1_witness :
    ((0:ℤ) ≤ 85 ∧ (85:ℤ) ≤ 100) ∧
    computeHealthScore
      (some ⟨none, none, some [], some [("addedSugar", true), ("vegan", true)]⟩) =
    computeHealthScore (some ⟨none, none, some [], some [("addedSugar", true)]⟩) :=
  ⟨c1_computeHealthScore_contract.2.2.1
      ⟨none, none, some [], some [("addedSugar", true)]⟩ 85 (by decide),
    c1_computeHealthScore_contract.2.2.2 _ _ rfl (by decide)⟩

/-- C3 counterexample: with all four scored flags true and exactly 10
additives the score is 30, not 10 — the claimed value
`max (0, 100-10-15-10-15-20)` is 30, not 10. -/
theorem c3_counterexample :
    (let st : Structured :=
      ⟨none, none, some (List.replicate 10 ⟨"E100", none⟩),
        some [("palmOil", true), ("addedSugar", true), ("addedSalt", true),
          ("msgLikeEnhancer", true)]⟩
    flagTrue st.flags "palmOil" = true ∧
    flagTrue st.flags "addedSugar" = true ∧
    flagTrue st.flags "addedSalt" = true ∧
    flagTrue st.flags "msgLikeEnhancer" = true ∧
    10 ≤ (st.additives.getD []).length ∧
    computeHealthScore (some st) = some 30 ∧ (30:ℤ) ≠ 10) := by
  decide

/-- C3 amended: for every structured result with all four scored flags
true and at least 10 additives, `computeHealthScore` returns exactly 30
(`= max (0, 100-10-15-10-15-20)`). -/
theorem c3_all_flags_ten_additives (st : Structured)
    (hP : flagTrue st.flags "palmOil" = true)
    (hSu : flagTrue st.flags "addedSugar" = true)
    (hSa : flagTrue st.flags "addedSalt" = true)
    (hM : flagTrue st.flags "msgLikeEnhancer" = true)
    (hA : 10 ≤ (st.additives.getD []).length) :
    computeHealthScore (some st) = some 30 := by
  rw [computeHealthScore_eq, hP, hSu, hSa, hM]
  have hpen : additivePenalty st.additives = 20 := by
    simp only [additivePenalty]
    omega
  rw [hpen]
  rfl

/-- C3 witness: the amended theorem applied to the all-flags, 10-additive
example. -/
theorem c3_witness :
    computeHealthScore
      (some ⟨none, none, some (List.replicate 10 ⟨"E102", none⟩),
        some [("palmOil", true), ("addedSugar", true), ("addedSalt", true),
          ("msgLikeEnhancer", true)]⟩) = some 30 :=
  c3_all_flags_ten_additives _ (by decide) (by decide) (by decide) (by decide)
    (by decide)

/-- C8: the score is order-independent — permuting the additives sequence
and rebuilding the (duplicate-free) flags mapping in a different insertion
order yields an identical score. -/
theorem c8_score_order_independent (st : Structured)
    (fl fl' : List (String × Bool)) (ad ad' : List Additive)
    (hfl : st.flags = some fl) (hperm : fl.Perm fl')
    (hnd : (fl.map Prod.fst).Nodup)
    (had : st.additives = some ad) (hadperm : ad.Perm ad') :
    computeHealthScore (some { st with flags := some fl', additives := some ad' }) =
      computeHealthScore (some st) := by
  rw [computeHealthScore_eq, computeHealthScore_eq]
  have hlk : ∀ k, flagTrue (some fl') k = flagTrue st.flags k := by
    intro k
    rw [hfl]
    simp only [flagTrue]
    rw [lookupFlag_perm hperm hnd k]
  have hpen : additivePenalty (some ad') = additivePenalty st.additives := by
    rw [had]
    simp only [additivePenalty, Option.getD_some]
    rw [hadperm.length_eq]
  simp only [hlk, hpen]

/-- C8 witness: the order-independence theorem applied to a two-flag,
two-additive example and its reversal. -/
theorem c8_witness :
    computeHealthScore
      (some ⟨none, none, some [⟨"E102", none⟩, ⟨"E100", none⟩],
        some [("addedSalt", true), ("palmOil", true)]⟩) =
    computeHealthScore
      (some ⟨none, none, some [⟨"E100", none⟩, ⟨"E102", none⟩],
        some [("palmOil", true), ("addedSalt", true)]⟩) :=
  c8_score_order_independent
    ⟨none, none, some [⟨"E100", none⟩, ⟨"E102", none⟩],
      some [("palmOil", true), ("addedSalt", true)]⟩
    _ _ _ _ rfl (by decide) (by decide) rfl (by decide)

/-- C9: the additive penalty used by `computeHealthScore` is monotonically
non-decreasing in the additive count and capped at 20; count 0 gives 0,
count 10 gives 20, count 50 still gives 20. -/
theorem c9_additivePenalty_monotone_capped :
    (∀ a b : Option (List Additive),
      (a.getD []).length ≤ (b.getD []).length →
      additivePenalty a ≤ additivePenalty b) ∧
    (∀ a : Option (List Additive), (a.getD []).length = 0 → additivePenalty a = 0) ∧
    (∀ a : Option (List Additive), (a.getD []).length = 10 → additivePenalty a = 20) ∧
    (∀ a : Option (List Additive), (a.getD []).length = 50 → additivePenalty a = 20) ∧
    (∀ a : Option (List Additive), additivePenalty a ≤ 20) := by
  refine ⟨?_, ?_, ?_, ?_, ?_⟩ <;> intro a <;>
    simp only [additivePenalty] <;> intros <;> omega

/-- C9 witness: monotonicity and the three sample counts evaluated on
concrete additive lists of lengths 0, 3, 10 and 50. -/
theorem c9_witness :
    additivePenalty (some []) ≤ additivePenalty (some [⟨"E100", none⟩, ⟨"E101", none⟩, ⟨"E102", none⟩]) ∧
    additivePenalty (some []) = 0 ∧
    additivePenalty (some (List.replicate 10 ⟨"E100", none⟩)) = 20 ∧
    additivePenalty (some (List.replicate 50 ⟨"E100", none⟩)) = 20 :=
  ⟨c9_additivePenalty_monotone_capped.1 _ _ (by decide),
    c9_additivePenalty_monotone_capped.2.1 _ (by decide),
    c9_additivePenalty_monotone_capped.2.2.1 _ (by decide),
    c9_additivePenalty_monotone_capped.2.2.2.1 _ (by decide)⟩

/-- C10: for every present structured result the score is at least 30 —
the deductible penalties are bounded by 50 (flags) plus 20 (additives) —
so the clamp to a minimum of 0 never changes the result. -/
theorem c10_score_at_least_30 :
    ∀ st : Structured, ∃ v : ℤ,
      computeHealthScore (some st) = some v ∧ 30 ≤ v ∧ max 0 v = v := by
  intro st
  have hb := additivePenalty_bounds st.additives
  refine ⟨_, computeHealthScore_eq st, ?_, ?_⟩ <;> split_ifs <;> omega

/-- C2 counterexample: `pickAndScan` itself has no busy guard — invoked on
a busy session (all external steps succeeding) it issues a backend request
and changes the session state, so the re-entrancy protection does not hold
at the controller level. -/
theorem c2_counterexample :
    busySession.busy = true ∧
    (pickAndScan okEnv busySession).uploadStarted = true ∧
    (pickAndScan okEnv busySession).session ≠ busySession := by
  decide

/-- C2 amended: re-entrant triggers are ignored only at the UI level — the
scan button is disabled while `busy`, so the handler is not invoked and
the session state is unchanged and no request is issued; the controller
function itself performs no busy check. -/
theorem c2_ui_busy_gate (env : ScanEnv) (s : Session) (h : s.busy = true) :
    uiTrigger env s = { session := s, alert := none, uploadStarted := false } := by
  simp [uiTrigger, h]

/-- C2 witness: the UI gate applied to the busy session and the
all-success environment. -/
theorem c2_witness :
    uiTrigger okEnv busySession =
      { session := busySession, alert := none, uploadStarted := false } :=
  c2_ui_busy_gate okEnv busySession rfl

/-- C4: after every invocation of `pickAndScan` — success, cancellation,
or a throw from any sub-step — `busy` is `false` (the `finally` path). -/
theorem c4_busy_false_after_every_terminal (env : ScanEnv) (s : Session) :
    (pickAndScan env s).session.busy = false := by
  simp only [pickAndScan]
  split <;> rfl

/-- C5: a cancelled capture terminates the scan with `busy = false`, empty
`lines`, absent `structured`, the image URI untouched by this attempt, and
no alert. -/
theorem c5_cancel_silent (env : ScanEnv) (s : Session) (r : PickerResult)
    (hpick : pickStep env = .ok r) (hcan : r.canceled = true) :
    pickAndScan env s =
      ⟨⟨s.imageUri, [], none, false⟩, none, false⟩ := by
  simp [pickAndScan, tryBlock, hpick, hcan]

/-- C5 witness: the cancellation theorem applied to a picker dismissal in
the all-success environment, starting from the busy session. -/
theorem c5_witness :
    pickAndScan { okEnv with picker := .ok ⟨true, []⟩ } busySession =
      ⟨⟨busySession.imageUri, [], none, false⟩, none, false⟩ :=
  c5_cancel_silent _ busySession ⟨true, []⟩ rfl rfl

/-- C6: a non-success HTTP response makes `uploadToBackend` fail with the
message `"Server error: <status>"` exactly, the user is shown an alert
whose body is that message, and `busy` returns to `false`. -/
theorem c6_server_error (env : ScanEnv) (s : Session) (r : PickerResult)
    (a : ImageAsset) (resp : HttpResponse)
    (hok : resp.ok = false)
    (hpick : pickStep env = .ok r) (hcan : r.canceled = false)
    (hassets : r.assets.head? = some a)
    (henc : encodeStep env = .ok ())
    (hfetch : env.fetchResult = .ok resp) :
    (∀ parseRes, uploadToBackend (.ok resp) parseRes =
      .error ("Server error: " ++ toString resp.status)) ∧
    (pickAndScan env s).alert =
      some { title := "OCR failed"
             message := "Server error: " ++ toString resp.status } ∧
    (pickAndScan env s).session.busy = false := by
  have hupl : ∀ parseRes, uploadToBackend (.ok resp) parseRes =
      .error ("Server error: " ++ toString resp.status) := by
    intro parseRes
    simp [uploadToBackend, hok]
  refine ⟨hupl, ?_, ?_⟩ <;>
    simp [pickAndScan, tryBlock, hpick, hcan, hassets, henc, hfetch, hupl,
      serverErrorMsg_ne_empty]

/-- C6 witness: the server-error theorem applied to an HTTP 500 response
in the otherwise-successful environment. -/
theorem c6_witness :
    uploadToBackend (.ok ⟨false, 500⟩) okEnv.jsonParse = .error "Server error: 500" ∧
    (pickAndScan { okEnv with fetchResult := .ok ⟨false, 500⟩ } busySession).alert =
      some { title := "OCR failed", message := "Server error: 500" } ∧
    (pickAndScan { okEnv with fetchResult := .ok ⟨false, 500⟩ }
        busySession).session.busy = false := by
  have h := c6_server_error { okEnv with fetchResult := .ok ⟨false, 500⟩ }
    busySession ⟨false, [⟨"blob:1"⟩]⟩ ⟨"blob:1"⟩ ⟨false, 500⟩
    rfl rfl rfl rfl rfl rfl
  exact ⟨h.1 okEnv.jsonParse, h.2.1, h.2.2⟩

/-- C7: a successful upload sets `lines` to the response's top-level
`lines` field (defaulting to the empty sequence) and `structured` to its
top-level `structured` field (defaulting to absent), shows no alert,
resets `busy`, and the extra top-level fields of the response do not
affect the outcome. -/
theorem c7_success_populates (env : ScanEnv) (s : Session) (r : PickerResult)
    (a : ImageAsset) (resp : HttpResponse) (json : Option ResponseJson)
    (hpick : pickStep env = .ok r) (hcan : r.canceled = false)
    (hassets : r.assets.head? = some a)
    (henc : encodeStep env = .ok ())
    (hfetch : env.fetchResult = .ok resp) (hok : resp.ok = true)
    (hparse : env.jsonParse = .ok json) :
    (pickAndScan env s).session.lines = (json.bind ResponseJson.lines).getD [] ∧
    (pickAndScan env s).session.structured = json.bind ResponseJson.structured ∧
    (pickAndScan env s).alert = none ∧
    (pickAndScan env s).session.busy = false ∧
    (∀ j : ResponseJson, ∀ e e' : List (String × String),
      pickAndScan { env with jsonParse := .ok (some { j with extra := e }) } s =
        pickAndScan { env with jsonParse := .ok (some { j with extra := e' }) } s) := by
  refine ⟨?_, ?_, ?_, ?_, ?_⟩
  · simp [pickAndScan, tryBlock, hpick, hcan, hassets, henc, hfetch,
      uploadToBackend, hok, hparse]
  · simp [pickAndScan, tryBlock, hpick, hcan, hassets, henc, hfetch,
      uploadToBackend, hok, hparse]
  · simp [pickAndScan, tryBlock, hpick, hcan, hassets, henc, hfetch,
      uploadToBackend, hok, hparse]
  · simp [pickAndScan, tryBlock, hpick, hcan, hassets, henc, hfetch,
      uploadToBackend, hok, hparse]
  · intro j e e'
    simp only [pickAndScan]
    rw [tryBlock_extra_irrelevant env _ j e e']

/-- C7 witness: the success theorem applied to the all-success
environment, whose response body has one line, no structured data and an
ignored extra field. -/
theorem c7_witness :
    (pickAndScan okEnv busySession).session.lines = [⟨"SUGAR", none⟩] ∧
    (pickAndScan okEnv busySession).session.structured = none ∧
    (pickAndScan okEnv busySession).alert = none ∧
    (pickAndScan okEnv busySession).session.busy = false := by
  have h := c7_success_populates okEnv busySession ⟨false, [⟨"blob:1"⟩]⟩
    ⟨"blob:1"⟩ ⟨true, 200⟩ (some ⟨some [⟨"SUGAR", none⟩], none, [("model", "v1")]⟩)
    rfl rfl rfl rfl rfl rfl rfl
  exact ⟨h.1, h.2.1, h.2.2.1, h.2.2.2.1⟩

end ScoreMyFood
